import Mathlib

/-!
Shallow embedding of the LottieFlow viewer (a single React component, `App`,
plus `types.ts`).  The component's handlers, its `useEffect` lifecycle for the
lottie render instance, and its `useCallback`-memoised `initAnimation` are
modelled as a step function on an explicit application state, emitting the
sequence of calls made to external collaborators (the lottie engine, `alert`,
`console.error`, and the text-generation service).

React semantics encoded here:
* `initAnimation` is memoised with dependency list
  `[settings.loop, settings.speed, settings.renderer]`, so its identity (and
  hence the effect's dependency list `[animationData, initAnimation]`) changes
  exactly when one of those three fields changes.
* `JSON.parse` returns a fresh object on every successful upload, so the
  `animationData` dependency changes on every successful upload.
* When the effect's dependencies change, React first runs the previous
  cleanup (which calls `destroy()` on `animationInstanceRef.current` if set,
  without clearing the ref) and then the effect body, which calls
  `initAnimation`; `initAnimation` itself destroys the still-set ref again
  before creating the new instance.
-/

/-- JSON values as produced by `JSON.parse`.  Numbers are modelled as integers
(the claims only copy numeric fields through, never compute with them). -/
inductive Json where
  | null
  | bool (b : Bool)
  | num (n : Int)
  | str (s : String)
  | arr (elems : List Json)
  | obj (fields : List (String × Json))

/-- JavaScript property access `j.k` on a parsed JSON value in the cases
where it does not throw: defined on objects (first binding wins, as in
`JSON.parse` output where later duplicate keys overwrite earlier ones — we
model the post-parse object, so keys are the effective ones); `undefined`
(`none`) on boxed primitives and arrays.  Property access on a parsed `null`
throws a `TypeError` instead; that path is modelled by `uploadParsed`, the
only place the program performs a non-optional property access on a value
that can be `null`. -/
def Json.get (j : Json) (k : String) : Option Json :=
  match j with
  | .obj fields => (fields.find? (fun p => p.1 = k)).map (fun p => p.2)
  | _ => none

/-- Whether a parsed JSON value is the literal `null` (the one `JSON.parse`
result on which property access throws). -/
def Json.isNull : Json → Bool
  | .null => true
  | _ => false

/-- JavaScript truthiness of a JSON value. -/
def jsTruthy : Json → Bool
  | .null => false
  | .bool b => b
  | .num n => decide (n ≠ 0)
  | .str s => decide (s ≠ "")
  | .arr _ => true
  | .obj _ => true

/-- JavaScript `x?.length` for `x` a possibly-`undefined` JSON value:
`undefined`/`null` propagate, arrays and strings yield their length,
objects yield their `"length"` property, other primitives yield `undefined`. -/
def jsLength : Option Json → Option Json
  | none => none
  | some .null => none
  | some (.arr elems) => some (.num elems.length)
  | some (.str s) => some (.num s.length)
  | some (.obj fields) => Json.get (.obj fields) "length"
  | some (.bool _) => none
  | some (.num _) => none

/-- JavaScript `x || 0` for a possibly-`undefined` value `x`. -/
def jsOrZero : Option Json → Json
  | none => .num 0
  | some v => if jsTruthy v then v else .num 0

/-- JavaScript `x || fallback` for `x : string | undefined`. -/
def jsOrStr (x : Option String) (fallback : String) : String :=
  match x with
  | none => fallback
  | some s => if s = "" then fallback else s

/-- `LottieMetadata` from `types.ts`, at its runtime (JavaScript) typing: the
numeric fields are whatever `json.fr` etc. evaluate to (possibly `undefined`),
and `layers` is the value of `json.layers?.length || 0`. -/
structure LottieMetadata where
  name : String
  size : Nat
  fr : Option Json
  ip : Option Json
  op : Option Json
  w : Option Json
  h : Option Json
  layers : Json

/-- The renderer backend union type `'svg' | 'canvas' | 'html'`. -/
inductive Renderer where
  | svg
  | canvas
  | html
deriving DecidableEq, Repr

/-- `AnimationSettings` from `types.ts`. -/
structure AnimationSettings where
  loop : Bool
  speed : ℚ
  backgroundColor : String
  renderer : Renderer
deriving DecidableEq, Repr

/-- The condensed JSON summary embedded in the analysis prompt
(`JSON.stringify({fr, w, h, layersCount, v, assetsCount})` in `handleAnalyze`),
together with the two metadata interpolations (`metadata?.layers`,
`metadata?.fr`) used in the prompt text. -/
structure AnalysisPromptData where
  mdLayers : Option Json
  mdFr : Option Json
  fr : Option Json
  w : Option Json
  h : Option Json
  layersCount : Option Json
  v : Option Json
  assetsCount : Option Json

/-- A call made to an external collaborator.  Engine calls carry the identity
of the lottie instance they are invoked on. -/
inductive Call where
  | create (id : Nat)
  | destroy (id : Nat)
  | setSpeed (id : Nat) (v : ℚ)
  | play (id : Nat)
  | pause (id : Nat)
  | stopCall (id : Nat)
  | goToAndPlay (id : Nat) (frame : Int)
  | alert (msg : String)
  | logError (err : String)
  | request (model : String) (data : AnalysisPromptData)

/-- The component's state: React `useState` hooks plus the
`animationInstanceRef` ref.  `inst` is `animationInstanceRef.current` (the
identity of the instance it points to; the ref is never cleared by the code),
`nextInst` supplies fresh instance identities. -/
structure AppState where
  animationData : Option Json
  metadata : Option LottieMetadata
  isPlaying : Bool
  isAnalyzing : Bool
  analysis : Option String
  settings : AnimationSettings
  inst : Option Nat
  nextInst : Nat

/-- The initial state of the component (the `useState` initialisers). -/
def initState : AppState :=
  { animationData := none
    metadata := none
    isPlaying := true
    isAnalyzing := false
    analysis := none
    settings := { loop := true, speed := 1, backgroundColor := "#ffffff", renderer := .svg }
    inst := none
    nextInst := 0 }

/-- The metadata record built in `handleFileUpload` on a successful parse. -/
def extractMetadata (j : Json) (name : String) (size : Nat) : LottieMetadata :=
  { name := name
    size := size
    fr := j.get "fr"
    ip := j.get "ip"
    op := j.get "op"
    w := j.get "w"
    h := j.get "h"
    layers := jsOrZero (jsLength (j.get "layers")) }

/-- `initAnimation(data)`: destroy the current instance if the ref is set
(the ref is not cleared), then — since the container is mounted whenever
`animationData` is set and `data` is the loaded document — create a new
instance with the current settings snapshot, apply the speed, and set
`isPlaying` to `true`. -/
def initAnimation (s : AppState) : AppState × List Call :=
  let destroyPart : List Call :=
    match s.inst with
    | some i => [.destroy i]
    | none => []
  match s.animationData with
  | some _ =>
      let j := s.nextInst
      ({ s with inst := some j, nextInst := j + 1, isPlaying := true },
        destroyPart ++ [.create j, .setSpeed j s.settings.speed])
  | none => (s, destroyPart)

/-- One run of the `useEffect` whose dependencies are
`[animationData, initAnimation]`, triggered because the dependencies changed:
the previous cleanup destroys the referenced instance (without clearing the
ref), then the body calls `initAnimation(animationData)` when a document is
loaded. -/
def runEffect (s : AppState) : AppState × List Call :=
  let cleanup : List Call :=
    match s.inst with
    | some i => [.destroy i]
    | none => []
  match s.animationData with
  | some _ =>
      let (s2, calls) := initAnimation s
      (s2, cleanup ++ calls)
  | none => (s, cleanup)

/-- The fixed alert text shown when `JSON.parse` throws in
`handleFileUpload`. -/
def parseFailMsg : String :=
  "Failed to parse Lottie JSON. Please ensure it's a valid Lottie file."

/-- The fixed message stored by the `catch` branch of `handleAnalyze`. -/
def analysisFailMsg : String :=
  "AI Analysis failed. Check your API key or network."

/-- The fallback stored when `response.text` is absent or empty. -/
def analysisEmptyMsg : String :=
  "Could not analyze the animation."

/-- The prompt data assembled in `handleAnalyze` from the current metadata and
the loaded document. -/
def promptData (s : AppState) (d : Json) : AnalysisPromptData :=
  { mdLayers := s.metadata.map (fun m => m.layers)
    mdFr := (s.metadata.map (fun m => m.fr)).join
    fr := d.get "fr"
    w := d.get "w"
    h := d.get "h"
    layersCount := jsLength (d.get "layers")
    v := d.get "v"
    assetsCount := jsLength (d.get "assets") }

/-- The externally observable events driving the component.  UI events model a
user gesture together with the synchronous React work it causes (handler,
re-render, and effect run when the effect dependencies changed); the
`analyzeOk`/`analyzeErr` events model the resolution of the pending
text-generation request. -/
inductive Event where
  | uploadOk (doc : Json) (name : String) (size : Nat)
  | uploadBad
  | playPause
  | stopClick
  | restartClick
  | speedChange (v : ℚ)
  | loopToggle
  | rendererChange (r : Renderer)
  | bgChange (c : String)
  | analyzeClick
  | analyzeOk (text : Option String)
  | analyzeErr (err : String)

/-- The transition function: each event maps the current state to the next
state together with the list of collaborator calls made, in order. -/
def step (s : AppState) : Event → AppState × List Call
  | .uploadOk doc name size =>
      -- reader.onload success branch: set data (fresh identity), metadata,
      -- clear analysis; the effect dependencies changed, so the effect runs.
      let s1 := { s with
        animationData := some doc
        metadata := some (extractMetadata doc name size)
        analysis := none }
      runEffect s1
  | .uploadBad =>
      -- reader.onload catch branch: alert only, no state update.
      (s, [.alert parseFailMsg])
  | .playPause =>
      match s.inst with
      | none => (s, [])
      | some i =>
          if s.isPlaying then ({ s with isPlaying := false }, [.pause i])
          else ({ s with isPlaying := true }, [.play i])
  | .stopClick =>
      match s.inst with
      | none => (s, [])
      | some i => ({ s with isPlaying := false }, [.stopCall i])
  | .restartClick =>
      match s.inst with
      | none => (s, [])
      | some i => (s, [.goToAndPlay i 0])
  | .speedChange v =>
      -- handleSpeedChange: update settings, push the speed into the live
      -- instance; if the speed actually changed, `initAnimation`'s identity
      -- changes and the effect re-runs.
      let s1 := { s with settings := { s.settings with speed := v } }
      let direct : List Call :=
        match s.inst with
        | some i => [.setSpeed i v]
        | none => []
      if v = s.settings.speed then (s1, direct)
      else
        let (s2, calls) := runEffect s1
        (s2, direct ++ calls)
  | .loopToggle =>
      let s1 := { s with settings := { s.settings with loop := !s.settings.loop } }
      runEffect s1
  | .rendererChange r =>
      let s1 := { s with settings := { s.settings with renderer := r } }
      if r = s.settings.renderer then (s1, [])
      else runEffect s1
  | .bgChange c =>
      ({ s with settings := { s.settings with backgroundColor := c } }, [])
  | .analyzeClick =>
      -- the button is disabled while `isAnalyzing`, so a click then fires no
      -- handler; otherwise handleAnalyze runs up to its `await`.
      if s.isAnalyzing then (s, [])
      else
        match s.animationData with
        | none => (s, [])
        | some d =>
            ({ s with isAnalyzing := true },
              [.request "gemini-3-flash-preview" (promptData s d)])
  | .analyzeOk text =>
      ({ s with analysis := some (jsOrStr text analysisEmptyMsg), isAnalyzing := false }, [])
  | .analyzeErr err =>
      ({ s with analysis := some analysisFailMsg, isAnalyzing := false },
        [.logError err])

/-- Run a sequence of events, accumulating the emitted calls. -/
def runTrace (s : AppState) : List Event → AppState × List Call
  | [] => (s, [])
  | e :: rest =>
      let (s1, c1) := step s e
      let (s2, c2) := runTrace s1 rest
      (s2, c1 ++ c2)

/-- The whole `reader.onload` body for an input whose text `JSON.parse`
accepts, including the `TypeError` path that `step`'s `uploadOk` event (the
completed success path) does not cover.  The try block runs
`setAnimationData(json)` first and only then builds the metadata record,
whose very first field read `json.fr` throws a `TypeError` when the parsed
value is the literal `null` (`JSON.parse("null")` succeeds), landing in the
same catch/alert branch as a parse failure — with the animation data already
reset, a partial update.  Concretely for a parsed `null`:
* if no document was loaded, `setAnimationData(null)` is an `Object.is`-equal
  update, React bails out, and nothing but the alert happens;
* if a document was loaded, the data change makes the effect dependencies
  differ, so after the alert the cleanup destroys the live instance (the ref
  again stays set) and the effect body does nothing since `animationData` is
  now `null`.
Metadata and analysis are untouched in both cases because `setMetadata` and
`setAnalysis` are never reached.  Every non-`null` parsed value takes the
completed success path, i.e. `step` on `uploadOk`. -/
def uploadParsed (s : AppState) (j : Json) (name : String) (size : Nat) :
    AppState × List Call :=
  if j.isNull then
    match s.animationData with
    | none => (s, [.alert parseFailMsg])
    | some _ =>
        let s1 := { s with animationData := none }
        match s1.inst with
        | some i => (s1, [.alert parseFailMsg, .destroy i])
        | none => (s1, [.alert parseFailMsg])
  else step s (.uploadOk j name size)

/-- Number of `create` calls in a trace. -/
def countCreates (t : List Call) : Nat :=
  t.countP (fun c => match c with | .create _ => true | _ => false)

/-- Number of `destroy` calls in a trace. -/
def countDestroys (t : List Call) : Nat :=
  t.countP (fun c => match c with | .destroy _ => true | _ => false)

/-- Number of outbound text-generation requests in a trace. -/
def countRequests (t : List Call) : Nat :=
  t.countP (fun c => match c with | .request _ _ => true | _ => false)

/-- Whether a call is directed at the render engine (its instances). -/
def isEngineCall : Call → Bool
  | .create _ => true
  | .destroy _ => true
  | .setSpeed _ _ => true
  | .play _ => true
  | .pause _ => true
  | .stopCall _ => true
  | .goToAndPlay _ _ => true
  | .alert _ => false
  | .logError _ => false
  | .request _ _ => false

/-- Scan a call trace maintaining the list of live (created and not yet
destroyed) instances, checking before every call and at the end that at most
one instance is live. -/
def liveOk (live : List Nat) : List Call → Bool
  | [] => decide (live.length ≤ 1)
  | c :: rest =>
      decide (live.length ≤ 1) &&
      (match c with
        | .create i => liveOk (live ++ [i]) rest
        | .destroy i => liveOk (live.filter (fun j => decide (j ≠ i))) rest
        | _ => liveOk live rest)

/-- The engine calls emitted by `n` further document loads starting from a
state whose ref holds instance `k` (with `nextInst = k + 1`) and whose
settings carry speed `sp`: each load destroys the previous instance twice
(effect cleanup, then the guard inside `initAnimation`) and creates the next
one. -/
def reloadTrace (sp : ℚ) (k : Nat) : Nat → List Call
  | 0 => []
  | Nat.succ n =>
      [.destroy k, .destroy k, .create (k + 1), .setSpeed (k + 1) sp] ++
        reloadTrace sp (k + 1) n

/-- The engine calls emitted by `n` consecutive document loads from the
pristine state: the first load only creates instance `0`, and each further
load destroys the previous instance twice before creating the next. -/
def expectedLoadTrace (sp : ℚ) : Nat → List Call
  | 0 => []
  | Nat.succ n => [.create 0, .setSpeed 0 sp] ++ reloadTrace sp 0 n

/-- A load event from a document, file name and byte size. -/
def mkLoad (p : Json × String × Nat) : Event :=
  .uploadOk p.1 p.2.1 p.2.2

/-- The concrete document from the spec scenario:
`{fr:30, ip:0, op:90, w:512, h:512, layers:[a,b,c], v:"5.1", assets:[]}`. -/
def docD : Json :=
  .obj [("fr", .num 30), ("ip", .num 0), ("op", .num 90),
        ("w", .num 512), ("h", .num 512),
        ("layers", .arr [.null, .null, .null]),
        ("v", .str "5.1"), ("assets", .arr [])]

/-- The state reached by uploading the spec scenario document. -/
def sLoaded : AppState :=
  (runTrace initState [mkLoad (docD, "anim.json", 2048)]).1

/-- C4: an upload whose text fails to parse leaves the entire application
state (document, metadata, render session, analysis) unchanged and makes no
collaborator call other than the fixed parse-failure alert. -/
theorem c4_invalid_upload_preserves_state (s : AppState) :
    step s .uploadBad = (s, [.alert parseFailMsg]) := rfl

/-- C6: when the analysis request fails, the stored analysis becomes the
fixed failure message, the pending flag is cleared, the error goes only to
the log, and the resulting state is independent of the error value. -/
theorem c6_analysis_failure_fixed_message (s : AppState) (err err' : String) :
    step s (.analyzeErr err) =
      ({ s with analysis := some analysisFailMsg, isAnalyzing := false },
        [.logError err]) ∧
    (step s (.analyzeErr err)).1 = (step s (.analyzeErr err')).1 :=
  ⟨rfl, rfl⟩

/-- C8: every successful document load clears the stored analysis result,
whatever it was before. -/
theorem c8_load_clears_analysis (s : AppState) (doc : Json) (name : String)
    (size : Nat) :
    (step s (.uploadOk doc name size)).1.analysis = none := by
  cases h : s.inst <;> simp [step, runEffect, initAnimation, h]

/-- C7 counterexample: a successful response whose text is the empty string
is not stored verbatim; the fixed fallback message is stored instead. -/
theorem c7_counterexample :
    (step initState (.analyzeOk (some ""))).1.analysis = some analysisEmptyMsg ∧
    (step initState (.analyzeOk (some ""))).1.analysis ≠ some "" := by
  constructor
  · rfl
  · intro h
    simp [step, jsOrStr, analysisEmptyMsg] at h

/-- C7 (amended): on success a non-empty returned text is stored verbatim
and the pending flag is cleared; an empty or absent text is replaced by the
fixed fallback message. -/
theorem c7_success_stores_nonempty_text (s : AppState) (t : String)
    (h : t ≠ "") :
    (step s (.analyzeOk (some t))).1.analysis = some t ∧
    (step s (.analyzeOk (some t))).1.isAnalyzing = false ∧
    (step s (.analyzeOk (some ""))).1.analysis = some analysisEmptyMsg ∧
    (step s (.analyzeOk none)).1.analysis = some analysisEmptyMsg := by
  refine ⟨?_, rfl, rfl, rfl⟩
  simp [step, jsOrStr, h]

theorem c7_success_stores_nonempty_text_witness :
    (step initState (.analyzeOk (some "A bouncing ball loader."))).1.analysis =
      some "A bouncing ball loader." :=
  (c7_success_stores_nonempty_text initState "A bouncing ball loader."
    (by decide)).1

/-- C9: pause/resume, stop and restart are no-ops when no render instance
exists (no engine call, state unchanged); when one exists they call the
corresponding engine operation on the live instance. -/
theorem c9_transport_guards (s : AppState) :
    (s.inst = none →
      step s .playPause = (s, []) ∧
      step s .stopClick = (s, []) ∧
      step s .restartClick = (s, [])) ∧
    (∀ i, s.inst = some i →
      (step s .playPause).2 =
        [if s.isPlaying then .pause i else .play i] ∧
      (step s .stopClick).2 = [.stopCall i] ∧
      (step s .restartClick).2 = [.goToAndPlay i 0]) := by
  constructor
  · intro h
    simp [step, h]
  · intro i h
    cases hp : s.isPlaying <;> simp [step, h, hp]

theorem c9_transport_guards_witness :
    step initState .playPause = (initState, []) ∧
    step initState .stopClick = (initState, []) ∧
    step initState .restartClick = (initState, []) :=
  (c9_transport_guards initState).1 rfl

/-- Number of parse-failure alerts in a trace. -/
def countAlerts (t : List Call) : Nat :=
  t.countP (fun c => match c with | .alert _ => true | _ => false)

theorem Json.isNull_eq_false {j : Json} (h : j ≠ .null) : j.isNull = false := by
  cases j <;> first | exact absurd rfl h | rfl

/-- C10 counterexample: the syntactically valid JSON input `null` is not
accepted without error — the handler raises the parse-failure alert (reading
`json.fr` on `null` throws) and the metadata is never set. -/
theorem c10_counterexample :
    countAlerts (uploadParsed initState .null "null.json" 4).2 = 1 ∧
    (uploadParsed initState .null "null.json" 4).1.metadata = none ∧
    uploadParsed initState .null "null.json" 4 =
      (initState, [.alert parseFailMsg]) :=
  ⟨rfl, rfl, rfl⟩

/-- C10 (amended): every parseable JSON input other than the literal `null`
is accepted as a document without error even when it lacks all of fr, ip, op,
w, h and layers: no alert is emitted, the document is stored as-is, the
metadata copies fr/ip/op/w/h through unvalidated (absent fields stay absent)
and only the layer count receives the defensive default 0; the input `null`,
however, throws on the first metadata field read, so the catch branch raises
the parse-failure alert and the metadata is never set. -/
theorem c10_accepts_all_but_null (s : AppState) (j : Json) (name : String)
    (size : Nat) (hj : j ≠ .null) :
    countAlerts (uploadParsed s j name size).2 = 0 ∧
    (uploadParsed s j name size).1.animationData = some j ∧
    (uploadParsed s j name size).1.metadata =
      some { name := name, size := size, fr := j.get "fr", ip := j.get "ip",
             op := j.get "op", w := j.get "w", h := j.get "h",
             layers := jsOrZero (jsLength (j.get "layers")) } ∧
    (uploadParsed s .null name size).1.metadata = s.metadata ∧
    countAlerts (uploadParsed s .null name size).2 = 1 := by
  have hb : j.isNull = false := Json.isNull_eq_false hj
  have hnull : (uploadParsed s .null name size).1.metadata = s.metadata ∧
      countAlerts (uploadParsed s .null name size).2 = 1 := by
    cases hd : s.animationData <;> cases hi : s.inst <;>
      simp [uploadParsed, Json.isNull, countAlerts, hd, hi]
  refine ⟨?_, ?_, ?_, hnull.1, hnull.2⟩ <;>
    cases h : s.inst <;>
      simp [uploadParsed, hb, step, runEffect, initAnimation, extractMetadata,
        countAlerts, h]

/-- C10 witness: the document `{}`, which lacks every field, is accepted with
no alert; its metadata has every copied field absent and layer count 0. -/
theorem c10_accepts_all_but_null_witness :
    countAlerts (uploadParsed initState (.obj []) "empty.json" 2).2 = 0 ∧
    (uploadParsed initState (.obj []) "empty.json" 2).1.metadata =
      some { name := "empty.json", size := 2, fr := none, ip := none,
             op := none, w := none, h := none, layers := .num 0 } := by
  have h := c10_accepts_all_but_null initState (.obj []) "empty.json" 2
    (fun hc => nomatch hc)
  exact ⟨h.1, h.2.2.1⟩

/-- C5: while an analysis request is pending the trigger is disabled, so a
second trigger is a no-op and two consecutive triggers issue exactly one
outbound request; the guard is the `isAnalyzing` flag (no queue: the no-op
leaves the state unchanged and emits nothing). -/
theorem c5_at_most_one_request (s : AppState) (d : Json)
    (hd : s.animationData = some d) (hp : s.isAnalyzing = false) :
    countRequests (runTrace s [.analyzeClick, .analyzeClick]).2 = 1 ∧
    step (step s .analyzeClick).1 .analyzeClick =
      ((step s .analyzeClick).1, []) ∧
    (∀ s' : AppState, s'.isAnalyzing = true → step s' .analyzeClick = (s', [])) := by
  refine ⟨?_, ?_, fun s' h => by simp [step, h]⟩
  · simp [runTrace, step, hd, hp, countRequests]
  · simp [step, hd, hp]

theorem c5_at_most_one_request_witness :
    countRequests (runTrace sLoaded [.analyzeClick, .analyzeClick]).2 = 1 :=
  (c5_at_most_one_request sLoaded docD rfl rfl).1

/-- C3: loading a valid document stores metadata whose name and size are the
file's, whose fr/ip/op/w/h are the document's top-level fields, and whose
layer count is the length of the layer list, 0 when the list is absent. -/
theorem c3_metadata_matches_document (s : AppState) (j : Json) (name : String)
    (size : Nat) :
    (step s (.uploadOk j name size)).1.metadata =
      some (extractMetadata j name size) ∧
    (extractMetadata j name size).name = name ∧
    (extractMetadata j name size).size = size ∧
    (extractMetadata j name size).fr = j.get "fr" ∧
    (extractMetadata j name size).ip = j.get "ip" ∧
    (extractMetadata j name size).op = j.get "op" ∧
    (extractMetadata j name size).w = j.get "w" ∧
    (extractMetadata j name size).h = j.get "h" ∧
    (j.get "layers" = none → (extractMetadata j name size).layers = .num 0) ∧
    (∀ l, j.get "layers" = some (.arr l) →
      (extractMetadata j name size).layers = .num l.length) := by
  refine ⟨?_, rfl, rfl, rfl, rfl, rfl, rfl, rfl, ?_, ?_⟩
  · cases h : s.inst <;> simp [step, runEffect, initAnimation, h]
  · intro h
    simp [extractMetadata, jsLength, jsOrZero, h]
  · intro l h
    cases l <;> simp [extractMetadata, jsLength, jsOrZero, jsTruthy, h]
    omega

/-- C3 witness: the spec scenario document of byte size 2048 yields metadata
{name := "anim.json", size := 2048, fr := 30, ip := 0, op := 90, w := 512,
h := 512, layers := 3}. -/
theorem c3_metadata_matches_document_witness :
    (step initState (.uploadOk docD "anim.json" 2048)).1.metadata =
      some (extractMetadata docD "anim.json" 2048) ∧
    (extractMetadata docD "anim.json" 2048).layers = .num 3 ∧
    extractMetadata docD "anim.json" 2048 =
      { name := "anim.json", size := 2048, fr := some (.num 30),
        ip := some (.num 0), op := some (.num 90), w := some (.num 512),
        h := some (.num 512), layers := .num 3 } :=
  ⟨(c3_metadata_matches_document initState docD "anim.json" 2048).1,
   by
    have h := (c3_metadata_matches_document initState docD "anim.json" 2048)
    exact h.2.2.2.2.2.2.2.2.2 [.null, .null, .null] rfl,
   rfl⟩

/-- C2 counterexample: from the state reached by one load (live instance 0,
speed 1), changing the speed to 2 emits two destroy calls and a create call —
the session is destroyed and recreated, contradicting the claim that a speed
change only calls the speed setter. -/
theorem c2_counterexample :
    countDestroys (step sLoaded (.speedChange 2)).2 = 2 ∧
    countCreates (step sLoaded (.speedChange 2)).2 = 1 := by
  constructor <;> rfl

/-- C2 (amended): while a session is live, changing the speed pushes the new
value into the live instance via its speed setter but additionally destroys
and recreates the session (the construction callback's dependency list
contains the speed), exactly as loop and renderer-backend changes do. -/
theorem c2_speed_change_also_rebuilds (s : AppState) (i : Nat) (d : Json)
    (v : ℚ) (r : Renderer) (hi : s.inst = some i)
    (hd : s.animationData = some d) (hv : v ≠ s.settings.speed)
    (hr : r ≠ s.settings.renderer) :
    (step s (.speedChange v)).2 =
      [.setSpeed i v, .destroy i, .destroy i, .create s.nextInst,
        .setSpeed s.nextInst v] ∧
    (step s .loopToggle).2 =
      [.destroy i, .destroy i, .create s.nextInst,
        .setSpeed s.nextInst s.settings.speed] ∧
    (step s (.rendererChange r)).2 =
      [.destroy i, .destroy i, .create s.nextInst,
        .setSpeed s.nextInst s.settings.speed] := by
  refine ⟨?_, ?_, ?_⟩ <;>
    simp [step, runEffect, initAnimation, hi, hd, hv, hr]

theorem c2_speed_change_also_rebuilds_witness :
    (step sLoaded (.speedChange 2)).2 =
      [.setSpeed 0 2, .destroy 0, .destroy 0, .create 1, .setSpeed 1 2] ∧
    (step sLoaded .loopToggle).2 =
      [.destroy 0, .destroy 0, .create 1, .setSpeed 1 1] ∧
    (step sLoaded (.rendererChange .canvas)).2 =
      [.destroy 0, .destroy 0, .create 1, .setSpeed 1 1] :=
  c2_speed_change_also_rebuilds sLoaded 0 docD 2 .canvas rfl rfl
    (by have h : sLoaded.settings.speed = 1 := rfl
        rw [h]; norm_num)
    (by decide)

/-- The calls emitted by a run of consecutive loads from a state that already
holds live instance `k` (with `nextInst = k + 1`) and a loaded document:
each load destroys `k` twice, creates `k + 1`, and so on. -/
theorem runTrace_loads_from (loads : List (Json × String × Nat)) :
    ∀ (s : AppState) (k : Nat), s.inst = some k → s.nextInst = k + 1 →
      s.animationData.isSome = true →
      (runTrace s (loads.map mkLoad)).2 =
        reloadTrace s.settings.speed k loads.length := by
  induction loads with
  | nil =>
      intro s k _ _ _
      simp [runTrace, reloadTrace]
  | cons p rest ih =>
      intro s k h1 h2 h3
      obtain ⟨j, nm, sz⟩ := p
      simp only [List.map_cons, runTrace, mkLoad, step, runEffect,
        initAnimation, h1, h2]
      rw [ih _ (k + 1) (by simp [h2]) (by simp [h2]) (by simp)]
      simp [reloadTrace, List.length_cons]

theorem countCreates_reloadTrace (sp : ℚ) :
    ∀ (n k : Nat), countCreates (reloadTrace sp k n) = n := by
  intro n
  induction n with
  | zero => intro k; rfl
  | succ m ih =>
      intro k
      simp [reloadTrace, countCreates, List.countP_cons] at ih ⊢
      exact ih (k + 1)

theorem countDestroys_reloadTrace (sp : ℚ) :
    ∀ (n k : Nat), countDestroys (reloadTrace sp k n) = 2 * n := by
  intro n
  induction n with
  | zero => intro k; rfl
  | succ m ih =>
      intro k
      simp [reloadTrace, countDestroys, List.countP_cons] at ih ⊢
      rw [ih (k + 1)]
      ring

theorem liveOk_reloadTrace (sp : ℚ) :
    ∀ (n k : Nat), liveOk [k] (reloadTrace sp k n) = true := by
  intro n
  induction n with
  | zero => intro k; rfl
  | succ m ih =>
      intro k
      simp only [reloadTrace, liveOk, List.cons_append, List.nil_append]
      simp [List.filter, ih (k + 1)]

theorem countCreates_expectedLoadTrace (sp : ℚ) (n : Nat) :
    countCreates (expectedLoadTrace sp n) = n := by
  cases n with
  | zero => rfl
  | succ m =>
      have h := countCreates_reloadTrace sp m 0
      simp [countCreates, List.countP_cons, List.countP_append] at h ⊢
      simp [expectedLoadTrace, List.countP_cons, List.countP_append, h]

theorem countDestroys_expectedLoadTrace (sp : ℚ) (n : Nat) :
    countDestroys (expectedLoadTrace sp n) = 2 * (n - 1) := by
  cases n with
  | zero => rfl
  | succ m =>
      have h := countDestroys_reloadTrace sp m 0
      simp [countDestroys, List.countP_cons, List.countP_append] at h ⊢
      simp [expectedLoadTrace, List.countP_cons, List.countP_append, h]

theorem liveOk_expectedLoadTrace (sp : ℚ) (n : Nat) :
    liveOk [] (expectedLoadTrace sp n) = true := by
  cases n with
  | zero => rfl
  | succ m =>
      have h := liveOk_reloadTrace sp m 0
      simp only [expectedLoadTrace, liveOk, List.cons_append, List.nil_append]
      simp [h]

/-- C1 (amended): `N` consecutive loads issue exactly `N` create calls and
`2 * (N - 1)` destroy calls — the first load destroys nothing, and each
subsequent load destroys the superseded instance twice (once in the effect
cleanup and once more through `initAnimation`'s guard on the never-cleared
ref) strictly before creating its replacement, as the explicit trace shows;
at no point are two instances live at once. -/
theorem c1_load_lifecycle (loads : List (Json × String × Nat)) :
    (runTrace initState (loads.map mkLoad)).2 =
      expectedLoadTrace 1 loads.length ∧
    countCreates (runTrace initState (loads.map mkLoad)).2 = loads.length ∧
    countDestroys (runTrace initState (loads.map mkLoad)).2 =
      2 * (loads.length - 1) ∧
    liveOk [] (runTrace initState (loads.map mkLoad)).2 = true := by
  have htrace : (runTrace initState (loads.map mkLoad)).2 =
      expectedLoadTrace 1 loads.length := by
    cases loads with
    | nil => rfl
    | cons p rest =>
        obtain ⟨j, nm, sz⟩ := p
        simp only [List.map_cons, runTrace, mkLoad, step, runEffect,
          initAnimation, initState]
        rw [runTrace_loads_from rest _ 0 ?h1 ?h2 ?h3]
        case h1 => rfl
        case h2 => rfl
        case h3 => rfl
        simp [expectedLoadTrace, List.length_cons]
  refine ⟨htrace, ?_, ?_, ?_⟩ <;> rw [htrace]
  · exact countCreates_expectedLoadTrace 1 loads.length
  · exact countDestroys_expectedLoadTrace 1 loads.length
  · exact liveOk_expectedLoadTrace 1 loads.length

/-- C1 counterexample: after one load the collaborator has received one
create call and zero destroy calls (not one), and after three loads four
destroy calls (not three), so it is false that after `N` loads exactly `N`
destroy calls have been paired with the `N` create calls. -/
theorem c1_counterexample :
    countCreates (runTrace initState [mkLoad (docD, "a.json", 10)]).2 = 1 ∧
    countDestroys (runTrace initState [mkLoad (docD, "a.json", 10)]).2 = 0 ∧
    countCreates (runTrace initState [mkLoad (docD, "a.json", 10),
      mkLoad (docD, "b.json", 11), mkLoad (docD, "c.json", 12)]).2 = 3 ∧
    countDestroys (runTrace initState [mkLoad (docD, "a.json", 10),
      mkLoad (docD, "b.json", 11), mkLoad (docD, "c.json", 12)]).2 = 4 := by
  refine ⟨rfl, rfl, rfl, rfl⟩
